import Mathlib

/-!
Shallow embedding of the browser-side client of the UGC multimodal
moderation demo (frontend/js/config.js, api.js, ui.js, app.js).

JavaScript numbers are modelled as exact rationals (`ℚ`); the decimal
literals of the source (0.4, 0.6, 0.7, 0.8) are taken at their decimal
value.  Parsed JSON / dynamic JS values are modelled by the inductive
`JVal`; a thrown JS `Error` is a `JsErr` (name and message); a promise
that can reject is an `Except JsErr _`.  DOM side effects of the submit
flow are recorded as an explicit event trace (`Event`).
-/

namespace Moderation

/-- A dynamic JavaScript value, as produced by `response.json()` and
consumed by the client.  Property access on non-objects is modelled as
`undef` (the client never performs it on `null`). -/
inductive JVal where
  | null
  | undefined
  | bool (b : Bool)
  | num (q : ℚ)
  | str (s : String)
  | obj (fields : List (String × JVal))
deriving Repr

/-- A thrown JavaScript `Error`: its `name` and `message`. -/
structure JsErr where
  name : String
  message : String
deriving Repr, DecidableEq

/-- JS truthiness of a `JVal` (`if (x)`): `false`, `0`, `""`, `null`,
`undefined` are falsy, everything else truthy. -/
def jsTruthy : JVal → Bool
  | .null => false
  | .undefined => false
  | .bool b => b
  | .num q => q != 0
  | .str s => s != ""
  | .obj _ => true

/-- JS property access `v.k`: field lookup on objects, `undefined`
otherwise. -/
def jsGet (v : JVal) (k : String) : JVal :=
  match v with
  | .obj fields =>
      match fields.lookup k with
      | some x => x
      | none => .undefined
  | _ => .undefined

/-- JS `a || b`. -/
def jsOr (a b : JVal) : JVal :=
  if jsTruthy a then a else b

/-- JS `String(v)` restricted to the shapes the client can feed to
`new Error(...)`; non-integer numbers use the rational printer, which no
verified property depends on. -/
def jsToString : JVal → String
  | .null => "null"
  | .undefined => "undefined"
  | .bool b => if b then "true" else "false"
  | .num q => if q.den = 1 then toString q.num else toString q
  | .str s => s
  | .obj _ => "[object Object]"

/-! ## config.js -/

/-- CONFIG.API.TIMEOUT (milliseconds). -/
def API_TIMEOUT : ℕ := 120000

/-- CONFIG.VIDEO.MAX_SIZE: the 50MB client-side cap, in bytes. -/
def VIDEO_MAX_SIZE : ℕ := 50 * 1024 * 1024

/-- One entry of CONFIG.UI.RISK_LEVELS: a numeric threshold, a CSS class
and a badge text. -/
structure RiskLevelDef where
  threshold : ℚ
  cls : String
  text : String
deriving Repr, DecidableEq

/-- CONFIG.UI.RISK_LEVELS.SAFE. -/
def RISK_SAFE : RiskLevelDef := ⟨0, "risk-safe", "✅ 内容正常"⟩

/-- CONFIG.UI.RISK_LEVELS.WARNING. -/
def RISK_WARNING : RiskLevelDef := ⟨0.6, "risk-warning", "⚠️ 中度风险"⟩

/-- CONFIG.UI.RISK_LEVELS.DANGER. -/
def RISK_DANGER : RiskLevelDef := ⟨0.8, "risk-danger", "🚨 高风险违规"⟩

/-! ## api.js -/

/-- A value appended to the multipart `FormData`: a string or a `File`
object (a file is identified by name and byte size). -/
structure FileObj where
  name : String
  size : ℕ
deriving Repr, DecidableEq

/-- A multipart form field value. -/
inductive FormValue where
  | str (s : String)
  | file (f : FileObj)
  | undefined
deriving Repr, DecidableEq

/-- The multipart body built by `APIService.moderate`: `content_type`
first, then `text` for text content and `file` for everything else
(api.js lines 12-19). -/
def buildFormData (contentType : String) (content : FormValue) :
    List (String × FormValue) :=
  [("content_type", FormValue.str contentType)] ++
    (if contentType = "text" then [("text", content)] else [("file", content)])

/-- The HTTP response seen by the client after `fetch` resolves:
`ok`/`status` plus the body already parsed to a `JVal`. -/
structure HttpResponse where
  ok : Bool
  status : ℕ
  body : JVal
deriving Repr

/-- Outcome of the `fetch` (plus `response.json()`) awaited inside
`moderate`: either a response or a rejection (network failure, or the
`AbortError` fired by the timeout controller). -/
inductive FetchOutcome where
  | success (resp : HttpResponse)
  | failure (err : JsErr)
deriving Repr

/-- The `try` block of `APIService.moderate` (api.js lines 24-43): a
rejected fetch propagates; a non-2xx response throws `HTTP错误: <status>`;
a body whose `success` is falsy throws `data.error || '审核失败'`; otherwise
it resolves with `{ success: true, data: data.result }`. -/
def moderateTry (f : FetchOutcome) : Except JsErr JVal :=
  match f with
  | .failure err => .error err
  | .success resp =>
      if !resp.ok then
        .error ⟨"Error", "HTTP错误: " ++ toString resp.status⟩
      else
        let data := resp.body
        if jsTruthy (jsGet data "success") then
          .ok (.obj [("success", .bool true), ("data", jsGet data "result")])
        else
          .error ⟨"Error", jsToString (jsOr (jsGet data "error") (.str "审核失败"))⟩

/-- `APIService.moderate` as a whole (api.js lines 11-50): the `catch`
translates an `AbortError` into the user-facing timeout message and
rethrows anything else. -/
def moderate (f : FetchOutcome) : Except JsErr JVal :=
  match moderateTry f with
  | .ok v => .ok v
  | .error e =>
      if e.name = "AbortError" then
        .error ⟨"Error", "请求超时，请检查网络或文件大小"⟩
      else
        .error e

/-- `APIService.healthCheck` (api.js lines 55-62).  Its input is the
combined outcome of the GET plus JSON parse; any rejection is swallowed
into `{ status: 'unhealthy', error: e.message }`.  The return type keeps
`Except` so that "never rejects" is a provable statement rather than a
modelling artifact. -/
def healthCheck (f : Except JsErr JVal) : Except JsErr JVal :=
  match f with
  | .ok body => .ok body
  | .error e =>
      .ok (.obj [("status", .str "unhealthy"), ("error", .str e.message)])

/-! ## ui.js -/

/-- The four moderation modes (the tabs of the UI). -/
inductive Mode where
  | text
  | image
  | audio
  | video
deriving Repr, DecidableEq

/-- The string a mode carries into the API (`content_type`). -/
def modeStr : Mode → String
  | .text => "text"
  | .image => "image"
  | .audio => "audio"
  | .video => "video"

/-- The view state mutated by `UIController`: the active mode/tab/panel,
the processing flag and its button/loading rendering, and visibility of
result container and placeholder. -/
structure UIState where
  currentMode : Mode
  activeTab : Mode
  activePanel : Mode
  isProcessing : Bool
  btnDisabled : Bool
  loadingShown : Bool
  btnText : String
  resultShown : Bool
  placeholderShown : Bool
deriving Repr, DecidableEq

/-- `UIController.setProcessingState` (ui.js lines 141-161): records the
flag, disables/enables the button, and while processing shows the
loading indicator, hides the placeholder and the result container;
when processing ends only the loading indicator and button text are
restored. -/
def setProcessingState (b : Bool) (s : UIState) : UIState :=
  let s := { s with isProcessing := b, btnDisabled := b }
  if b then
    { s with loadingShown := true, placeholderShown := false,
             resultShown := false, btnText := "分析中..." }
  else
    { s with loadingShown := false, btnText := "🔍 启动跨模态智能审核" }

/-- `UIController.resetResults` (ui.js lines 307-313): hides the result
container and restores the placeholder. -/
def resetResults (s : UIState) : UIState :=
  { s with resultShown := false, placeholderShown := true }

/-- `UIController.switchMode` (ui.js lines 54-67): records the new mode,
activates its tab and panel, then unconditionally resets the result
view.  All four modes have a tab and a panel in the page, so the DOM
lookups are total. -/
def switchMode (m : Mode) (s : UIState) : UIState :=
  resetResults { s with currentMode := m, activeTab := m, activePanel := m }

/-- The risk-level derivation of `UIController.displayResults`
(ui.js lines 176-193), for a result whose `violation` is a boolean and
whose `confidence` is a number: a violation at confidence ≥ DANGER
threshold is DANGER, at ≥ WARNING threshold is WARNING, below that still
WARNING; a non-violation is SAFE. -/
def displayRiskLevel (violation : Bool) (confidence : ℚ) : RiskLevelDef :=
  if violation then
    if confidence ≥ RISK_DANGER.threshold then RISK_DANGER
    else if confidence ≥ RISK_WARNING.threshold then RISK_WARNING
    else RISK_WARNING
  else RISK_SAFE

/-- The consistency tier rendered for an alignment score. -/
structure ConsistencyInfo where
  cls : String
  icon : String
  title : String
deriving Repr, DecidableEq

/-- `UIController.getConsistencyInfo` (ui.js lines 272-280). -/
def getConsistencyInfo (score : ℚ) : ConsistencyInfo :=
  if score > 0.7 then ⟨"consistency-high", "✅", "高一致性"⟩
  else if score > 0.4 then ⟨"consistency-medium", "⚠️", "中等一致性"⟩
  else ⟨"consistency-low", "🚨", "低一致性"⟩

/-! ## app.js -/

/-- The environment a single click of the moderate button runs in: the
active mode, the text input's value, the chosen file (if any) of each
file input, and the outcome the network would produce if a request were
made. -/
structure AppEnv where
  mode : Mode
  textValue : String
  imageFile : Option FileObj
  audioFile : Option FileObj
  videoFile : Option FileObj
  fetch : FetchOutcome

/-- The file list of the `<mode>-file` input (`none` both when the input
is absent and when it is empty). -/
def fileFor (env : AppEnv) : Mode → Option FileObj
  | .text => none
  | .image => env.imageFile
  | .audio => env.audioFile
  | .video => env.videoFile

/-- `ModerationApp.validateInput` (app.js lines 84-92): text mode needs a
non-empty trimmed text value, file modes need a chosen file. -/
def validateInput (env : AppEnv) : Bool :=
  match env.mode with
  | .text => env.textValue.trim.length > 0
  | m => (fileFor env m).isSome

/-- The numeric part of the oversized-video message:
`(size/1024/1024).toFixed(1)`, rendered by exact rational rounding (the
float rounding of `toFixed` can differ in the last ulp; nothing verified
depends on the digits). -/
def mbFixed1 (size : ℕ) : String :=
  let t := (size * 10 + 1024 * 1024 / 2) / (1024 * 1024)
  toString (t / 10) ++ "." ++ toString (t % 10)

/-- The message of the error thrown for an oversized video
(app.js line 106). -/
def videoTooLargeMsg (size : ℕ) : String :=
  "视频文件过大（" ++ mbFixed1 size ++ "MB），请限制在50MB以内"

/-- `ModerationApp.prepareContent` (app.js lines 97-111): text mode
returns the raw text value; file modes return the first chosen file,
except that a video larger than `CONFIG.VIDEO.MAX_SIZE` throws before
the file is returned.  With no chosen file, video mode throws the
TypeError of reading `.size` of `undefined`, other file modes return
`undefined` (both cases are unreachable after validation). -/
def prepareContent (env : AppEnv) : Except JsErr FormValue :=
  match env.mode with
  | .text => .ok (.str env.textValue)
  | m =>
      match fileFor env m with
      | some f =>
          if m = .video ∧ f.size > VIDEO_MAX_SIZE then
            .error ⟨"Error", videoTooLargeMsg f.size⟩
          else
            .ok (.file f)
      | none =>
          if m = .video then
            .error ⟨"TypeError", "Cannot read properties of undefined (reading size)"⟩
          else
            .ok .undefined

/-- The message the empty-input alert shows (app.js line 53). -/
def emptyInputAlertMsg : String := "⚠️ 请先输入内容或上传文件！"

/-- An observable action of the submit flow, in the order it is
performed. -/
inductive Event where
  | alert (msg : String)
  | setProcessing (b : Bool)
  | updateLoading (m : Mode)
  | apiCall (contentType : String) (form : List (String × FormValue))
  | displayResults (data : JVal) (m : Mode)
  | showError (msg : String)
deriving Repr

/-- Whether an event is the network request to `/api/moderate`. -/
def Event.isApiCall : Event → Bool
  | .apiCall _ _ => true
  | _ => false

/-- Whether an event is the inline error panel. -/
def Event.isShowError : Event → Bool
  | .showError _ => true
  | _ => false

/-- `ModerationApp.startModeration` (app.js lines 46-79) as the trace of
actions one click performs: failed validation alerts and returns; else
the processing state is entered, content is prepared and sent, the
result or error is rendered, and the `finally` clause always restores
the processing state. -/
def startModeration (env : AppEnv) : List Event :=
  if !validateInput env then
    [.alert emptyInputAlertMsg]
  else
    [.setProcessing true, .updateLoading env.mode] ++
      (match prepareContent env with
       | .error e => [.showError e.message]
       | .ok content =>
           let ct := modeStr env.mode
           .apiCall ct (buildFormData ct content) ::
             (match moderate env.fetch with
              | .error e => [.showError e.message]
              | .ok result =>
                  if jsTruthy (jsGet result "success") then
                    [.displayResults (jsGet result "data") env.mode]
                  else [])) ++
      [.setProcessing false]

/-- Effect of one flow event on the view state (`updateLoadingProgress`
touches only the loading caption, `alert` and the request itself touch
nothing modelled here; `displayResults` and `showError` both show the
result container). -/
def applyEvent (s : UIState) : Event → UIState
  | .alert _ => s
  | .setProcessing b => setProcessingState b s
  | .updateLoading _ => s
  | .apiCall _ _ => s
  | .displayResults _ _ => { s with resultShown := true }
  | .showError _ => { s with resultShown := true }

/-- The view state after a trace of events. -/
def runEvents (s : UIState) (tr : List Event) : UIState :=
  tr.foldl applyEvent s

/-- Whether an event enters or leaves the processing state. -/
def Event.isSetProcessing : Event → Bool
  | .setProcessing _ => true
  | _ => false

/-! ## Theorems -/

/-- C1: for every result passed to `displayResults`, a violation with
confidence ≥ 0.8 is classified DANGER, with confidence in [0.6, 0.8)
WARNING, with confidence < 0.6 still WARNING (never SAFE), and a
non-violation is SAFE regardless of confidence. -/
theorem c1_risk_classification (c : ℚ) :
    ((0.8 : ℚ) ≤ c → displayRiskLevel true c = RISK_DANGER) ∧
    ((0.6 : ℚ) ≤ c → c < (0.8 : ℚ) → displayRiskLevel true c = RISK_WARNING) ∧
    (c < (0.6 : ℚ) → displayRiskLevel true c = RISK_WARNING) ∧
    (displayRiskLevel false c = RISK_SAFE) ∧
    displayRiskLevel true c ≠ RISK_SAFE := by
  refine ⟨fun h => ?_, fun h1 h2 => ?_, fun h => ?_, ?_, ?_⟩
  · simp [displayRiskLevel, RISK_DANGER, h]
  · have h8 : ¬ ((0.8 : ℚ) ≤ c) := not_le.mpr h2
    simp [displayRiskLevel, RISK_DANGER, RISK_WARNING, h8, h1]
  · have h8 : ¬ ((0.8 : ℚ) ≤ c) := not_le.mpr (h.trans (by norm_num))
    have h6 : ¬ ((0.6 : ℚ) ≤ c) := not_le.mpr h
    simp [displayRiskLevel, RISK_DANGER, RISK_WARNING, h8, h6]
  · simp [displayRiskLevel]
  · unfold displayRiskLevel
    split_ifs <;> simp_all [RISK_DANGER, RISK_WARNING, RISK_SAFE]

/-- C1 witness: the classification evaluated at 0.9, 0.7, 0.5 for a
violation and at 0.9 for a non-violation. -/
theorem c1_risk_classification_witness :
    ((0.8 : ℚ) ≤ 0.9 ∧ displayRiskLevel true 0.9 = RISK_DANGER) ∧
    ((0.6 : ℚ) ≤ 0.7 ∧ (0.7 : ℚ) < 0.8 ∧
      displayRiskLevel true 0.7 = RISK_WARNING) ∧
    ((0.5 : ℚ) < 0.6 ∧ displayRiskLevel true 0.5 = RISK_WARNING) ∧
    displayRiskLevel false 0.9 = RISK_SAFE :=
  ⟨⟨by norm_num, (c1_risk_classification 0.9).1 (by norm_num)⟩,
   ⟨by norm_num, by norm_num,
     (c1_risk_classification 0.7).2.1 (by norm_num) (by norm_num)⟩,
   ⟨by norm_num, (c1_risk_classification 0.5).2.2.1 (by norm_num)⟩,
   (c1_risk_classification 0.9).2.2.2.1⟩

/-- C9: `getConsistencyInfo` uses the fixed thresholds 0.7 and 0.4:
score > 0.7 is the high tier, 0.4 < score ≤ 0.7 the medium tier, and
score ≤ 0.4 the low tier. -/
theorem c9_consistency_thresholds (s : ℚ) :
    ((0.7 : ℚ) < s →
      getConsistencyInfo s = ⟨"consistency-high", "✅", "高一致性"⟩) ∧
    ((0.4 : ℚ) < s → s ≤ (0.7 : ℚ) →
      getConsistencyInfo s = ⟨"consistency-medium", "⚠️", "中等一致性"⟩) ∧
    (s ≤ (0.4 : ℚ) →
      getConsistencyInfo s = ⟨"consistency-low", "🚨", "低一致性"⟩) := by
  refine ⟨fun h => ?_, fun h1 h2 => ?_, fun h => ?_⟩
  · simp [getConsistencyInfo, h]
  · have h7 : ¬ ((0.7 : ℚ) < s) := not_lt.mpr h2
    simp [getConsistencyInfo, h7, h1]
  · have h7 : ¬ ((0.7 : ℚ) < s) := not_lt.mpr (h.trans (by norm_num))
    have h4 : ¬ ((0.4 : ℚ) < s) := not_lt.mpr h
    simp [getConsistencyInfo, h7, h4]

/-- C9 witness: the three tiers evaluated at 0.8, 0.5 and 0.3. -/
theorem c9_consistency_thresholds_witness :
    ((0.7 : ℚ) < 0.8 ∧
      getConsistencyInfo 0.8 = ⟨"consistency-high", "✅", "高一致性"⟩) ∧
    ((0.4 : ℚ) < 0.5 ∧ (0.5 : ℚ) ≤ 0.7 ∧
      getConsistencyInfo 0.5 = ⟨"consistency-medium", "⚠️", "中等一致性"⟩) ∧
    ((0.3 : ℚ) ≤ 0.4 ∧
      getConsistencyInfo 0.3 = ⟨"consistency-low", "🚨", "低一致性"⟩) :=
  ⟨⟨by norm_num, (c9_consistency_thresholds 0.8).1 (by norm_num)⟩,
   ⟨by norm_num, by norm_num,
     (c9_consistency_thresholds 0.5).2.1 (by norm_num) (by norm_num)⟩,
   ⟨by norm_num, (c9_consistency_thresholds 0.3).2.2 (by norm_num)⟩⟩

/-- C3: when the fetch inside `moderate` rejects with an error named
`AbortError` (the client-side timeout), `moderate` rejects with the
translated user-facing timeout message, not the raw abort error. -/
theorem c3_timeout_translated (err : JsErr) (h : err.name = "AbortError") :
    moderate (.failure err) =
      .error ⟨"Error", "请求超时，请检查网络或文件大小"⟩ := by
  simp [moderate, moderateTry, h]

/-- C3 witness: the translation evaluated on a concrete abort error. -/
theorem c3_timeout_translated_witness :
    (JsErr.mk "AbortError" "signal is aborted without reason").name =
      "AbortError" ∧
    moderate (.failure ⟨"AbortError", "signal is aborted without reason"⟩) =
      .error ⟨"Error", "请求超时，请检查网络或文件大小"⟩ :=
  ⟨rfl, c3_timeout_translated ⟨"AbortError", "signal is aborted without reason"⟩ rfl⟩

/-- C7: `healthCheck` never rejects: every input yields a resolved
value; a rejected GET resolves to the `unhealthy` status object carrying
the error message, and a successful GET resolves to the parsed body. -/
theorem c7_healthcheck_never_rejects (e : JsErr) (b : JVal) :
    (∀ f, ∃ v, healthCheck f = .ok v) ∧
    healthCheck (.error e) =
      .ok (.obj [("status", .str "unhealthy"), ("error", .str e.message)]) ∧
    healthCheck (.ok b) = .ok b := by
  refine ⟨fun f => ?_, rfl, rfl⟩
  cases f with
  | ok v => exact ⟨v, rfl⟩
  | error e => exact ⟨_, rfl⟩

/-- C8: the multipart body always carries `content_type` equal to the
requested content type, plus exactly one content field: `text` for text
content, `file` for every other content type. -/
theorem c8_form_fields (ct : String) (c : FormValue) :
    (buildFormData ct c).lookup "content_type" = some (.str ct) ∧
    (ct = "text" → buildFormData ct c =
      [("content_type", .str ct), ("text", c)]) ∧
    (ct ≠ "text" → buildFormData ct c =
      [("content_type", .str ct), ("file", c)]) ∧
    ((buildFormData ct c).filter
      (fun p => p.1 == "text" || p.1 == "file")).length = 1 := by
  by_cases hct : ct = "text"
  · subst hct
    exact ⟨rfl, fun _ => rfl, fun h => absurd rfl h, rfl⟩
  · have hb : buildFormData ct c = [("content_type", .str ct), ("file", c)] := by
      simp [buildFormData, hct]
    exact ⟨by rw [hb]; rfl, fun h => absurd h hct, fun _ => hb, by rw [hb]; rfl⟩

/-- C8 witness: the form evaluated for a text submission and an image
submission. -/
theorem c8_form_fields_witness :
    buildFormData "text" (.str "hello") =
      [("content_type", .str "text"), ("text", .str "hello")] ∧
    ("image" ≠ "text" ∧ buildFormData "image" (.file ⟨"a.png", 10⟩) =
      [("content_type", .str "image"), ("file", .file ⟨"a.png", 10⟩)]) :=
  ⟨(c8_form_fields "text" (.str "hello")).2.1 rfl,
   ⟨by decide, (c8_form_fields "image" (.file ⟨"a.png", 10⟩)).2.2.1 (by decide)⟩⟩

/-- C10: `switchMode` records the new mode and unconditionally resets
the result view, so the result container is hidden and the placeholder
restored after every mode switch. -/
theorem c10_switch_mode_resets (m : Mode) (s : UIState) :
    (switchMode m s).currentMode = m ∧
    (switchMode m s).resultShown = false ∧
    (switchMode m s).placeholderShown = true :=
  ⟨rfl, rfl, rfl⟩

/-- C2: in video mode with a chosen file larger than 50MB,
`prepareContent` throws, the whole flow is
enter processing → loading → show error → leave processing, and no API
call (no network request) ever appears in the trace. -/
theorem c2_video_size_cap (env : AppEnv) (f : FileObj)
    (hm : env.mode = .video) (hf : env.videoFile = some f)
    (hs : f.size > 50 * 1024 * 1024) :
    prepareContent env = .error ⟨"Error", videoTooLargeMsg f.size⟩ ∧
    startModeration env =
      [.setProcessing true, .updateLoading .video,
       .showError (videoTooLargeMsg f.size), .setProcessing false] ∧
    (startModeration env).any Event.isApiCall = false := by
  have hval : validateInput env = true := by
    simp [validateInput, hm, fileFor, hf]
  have hprep : prepareContent env = .error ⟨"Error", videoTooLargeMsg f.size⟩ := by
    simp [prepareContent, hm, fileFor, hf, VIDEO_MAX_SIZE, hs]
  have htrace : startModeration env =
      [.setProcessing true, .updateLoading .video,
       .showError (videoTooLargeMsg f.size), .setProcessing false] := by
    simp [startModeration, hval, hprep, hm]
  exact ⟨hprep, htrace, by rw [htrace]; rfl⟩

/-- C2 witness: the flow evaluated on a 52428801-byte video file. -/
theorem c2_video_size_cap_witness :
    (AppEnv.mk .video "" none none (some ⟨"big.mp4", 52428801⟩)
        (.failure ⟨"e", "m"⟩)).mode = .video ∧
    (52428801 > 50 * 1024 * 1024) ∧
    startModeration
        ⟨.video, "", none, none, some ⟨"big.mp4", 52428801⟩,
          .failure ⟨"e", "m"⟩⟩ =
      [.setProcessing true, .updateLoading .video,
       .showError (videoTooLargeMsg 52428801), .setProcessing false] ∧
    (startModeration
        ⟨.video, "", none, none, some ⟨"big.mp4", 52428801⟩,
          .failure ⟨"e", "m"⟩⟩).any Event.isApiCall = false :=
  ⟨rfl, by norm_num,
   (c2_video_size_cap _ ⟨"big.mp4", 52428801⟩ rfl rfl (by norm_num)).2.1,
   (c2_video_size_cap _ ⟨"big.mp4", 52428801⟩ rfl rfl (by norm_num)).2.2⟩

/-- C4: with empty trimmed text in text mode, or no chosen file in a
file mode, the click only alerts: no request is sent and the processing
state is never entered. -/
theorem c4_empty_input_blocks (env : AppEnv)
    (h : (env.mode = .text ∧ env.textValue.trim = "") ∨
         (env.mode ≠ .text ∧ fileFor env env.mode = none)) :
    startModeration env = [.alert emptyInputAlertMsg] ∧
    (startModeration env).any Event.isApiCall = false ∧
    (startModeration env).any Event.isSetProcessing = false := by
  have hval : validateInput env = false := by
    rcases h with ⟨hm, ht⟩ | ⟨hm, hf⟩
    · simp [validateInput, hm, ht]
    · cases hmode : env.mode with
      | text => exact absurd hmode hm
      | image =>
          rw [hmode] at hf
          simp only [fileFor] at hf
          simp [validateInput, hmode, fileFor, hf]
      | audio =>
          rw [hmode] at hf
          simp only [fileFor] at hf
          simp [validateInput, hmode, fileFor, hf]
      | video =>
          rw [hmode] at hf
          simp only [fileFor] at hf
          simp [validateInput, hmode, fileFor, hf]
  have htrace : startModeration env = [.alert emptyInputAlertMsg] := by
    simp [startModeration, hval]
  exact ⟨htrace, by rw [htrace]; rfl, by rw [htrace]; rfl⟩

/-- C4 witness: the flow evaluated on image mode with no chosen file. -/
theorem c4_empty_input_blocks_witness :
    ((AppEnv.mk .image "x" none none none (.failure ⟨"e", "m"⟩)).mode ≠ .text ∧
      fileFor (AppEnv.mk .image "x" none none none (.failure ⟨"e", "m"⟩))
        (AppEnv.mk .image "x" none none none (.failure ⟨"e", "m"⟩)).mode = none) ∧
    startModeration (AppEnv.mk .image "x" none none none (.failure ⟨"e", "m"⟩)) =
      [.alert emptyInputAlertMsg] ∧
    (startModeration
        (AppEnv.mk .image "x" none none none
          (.failure ⟨"e", "m"⟩))).any Event.isSetProcessing = false :=
  ⟨⟨by decide, rfl⟩,
   (c4_empty_input_blocks (AppEnv.mk .image "x" none none none (.failure ⟨"e", "m"⟩))
      (Or.inr ⟨by decide, rfl⟩)).1,
   (c4_empty_input_blocks (AppEnv.mk .image "x" none none none (.failure ⟨"e", "m"⟩))
      (Or.inr ⟨by decide, rfl⟩)).2.2⟩

/-- C6: once validation passes, the flow always ends by leaving the
processing state: the last action of the trace is
`setProcessingState false`, and after running the trace from any view
state the processing flag is cleared and the button re-enabled,
whatever the outcomes of `prepareContent` and `moderate` were. -/
theorem c6_processing_restored (env : AppEnv) (s : UIState)
    (h : validateInput env = true) :
    (startModeration env).getLast? = some (.setProcessing false) ∧
    (runEvents s (startModeration env)).isProcessing = false ∧
    (runEvents s (startModeration env)).btnDisabled = false := by
  obtain ⟨mid, hmid⟩ : ∃ mid, startModeration env =
      ([Event.setProcessing true, Event.updateLoading env.mode] ++ mid) ++
        [Event.setProcessing false] := by
    simp only [startModeration, h, Bool.not_true, Bool.false_eq_true,
      if_false, List.cons_append, List.nil_append, List.append_assoc]
    exact ⟨_, rfl⟩
  refine ⟨?_, ?_, ?_⟩
  · rw [hmid, List.getLast?_concat]
  · rw [runEvents, hmid, List.foldl_append]
    rfl
  · rw [runEvents, hmid, List.foldl_append]
    rfl

/-- C6 witness: image-mode submission with a chosen file and a failing
fetch, run from the initial view state of the `UIController`
constructor. -/
theorem c6_processing_restored_witness :
    validateInput
        (AppEnv.mk .image "" (some ⟨"a.png", 10⟩) none none
          (.failure ⟨"TypeError", "Failed to fetch"⟩)) = true ∧
    (runEvents
        ⟨.text, .text, .text, false, false, false,
          "🔍 启动跨模态智能审核", false, true⟩
        (startModeration
          (AppEnv.mk .image "" (some ⟨"a.png", 10⟩) none none
            (.failure ⟨"TypeError", "Failed to fetch"⟩)))).isProcessing =
      false :=
  ⟨rfl,
   (c6_processing_restored
      (AppEnv.mk .image "" (some ⟨"a.png", 10⟩) none none
        (.failure ⟨"TypeError", "Failed to fetch"⟩))
      ⟨.text, .text, .text, false, false, false,
        "🔍 启动跨模态智能审核", false, true⟩ rfl).2.1⟩

/-- C5 counterexample: for a 200 response whose body is
`\x7bsuccess: true, result: "ok"\x7d` the promise does not resolve with
the parsed result object `"ok"` itself; it resolves with the wrapper
`\x7bsuccess: true, data: "ok"\x7d`. -/
theorem c5_counterexample :
    moderate (.success ⟨true, 200,
        .obj [("success", .bool true), ("result", .str "ok")]⟩) ≠
      Except.ok (JVal.str "ok") ∧
    moderate (.success ⟨true, 200,
        .obj [("success", .bool true), ("result", .str "ok")]⟩) =
      .ok (.obj [("success", .bool true), ("data", .str "ok")]) := by
  have heval : moderate (.success ⟨true, 200,
      .obj [("success", .bool true), ("result", .str "ok")]⟩) =
      .ok (.obj [("success", .bool true), ("data", .str "ok")]) := rfl
  refine ⟨?_, heval⟩
  rw [heval]
  intro hcon
  injection hcon with h
  exact JVal.noConfusion h

/-- C5 amended: a non-2xx response rejects with `HTTP错误: <status>`
(which contains the HTTP status); a 2xx body with falsy `success`
rejects with the server's error message, or with the default `审核失败`
when the error field is absent or falsy; and a 2xx body with truthy
`success` resolves with the wrapper object
`\x7bsuccess: true, data: <parsed result object>\x7d`, not with the bare
result object. -/
theorem c5_moderate_outcomes (resp : HttpResponse) (m : String) :
    (resp.ok = false → moderate (.success resp) =
      .error ⟨"Error", "HTTP错误: " ++ toString resp.status⟩) ∧
    (resp.ok = true → jsTruthy (jsGet resp.body "success") = true →
      moderate (.success resp) =
        .ok (.obj [("success", .bool true),
                   ("data", jsGet resp.body "result")])) ∧
    (resp.ok = true → jsTruthy (jsGet resp.body "success") = false →
      jsGet resp.body "error" = .str m → m ≠ "" →
      moderate (.success resp) = .error ⟨"Error", m⟩) ∧
    (resp.ok = true → jsTruthy (jsGet resp.body "success") = false →
      jsTruthy (jsGet resp.body "error") = false →
      moderate (.success resp) = .error ⟨"Error", "审核失败"⟩) := by
  refine ⟨fun hok => ?_, fun hok hs => ?_, fun hok hs herr hm => ?_,
    fun hok hs herr => ?_⟩
  · simp [moderate, moderateTry, hok]
  · simp [moderate, moderateTry, hok, hs]
  · have hstr : jsTruthy (JVal.str m) = true := by simp [jsTruthy, hm]
    simp [moderate, moderateTry, jsOr, hok, hs, herr, hstr, jsToString]
  · simp [moderate, moderateTry, jsOr, hok, hs, herr, jsToString]

/-- C5 witness: the three rejection shapes and the success shape
evaluated on concrete responses. -/
theorem c5_moderate_outcomes_witness :
    moderate (.success ⟨false, 500, .null⟩) =
      .error ⟨"Error", "HTTP错误: " ++ toString 500⟩ ∧
    moderate (.success ⟨true, 200,
        .obj [("success", .bool true), ("result", .str "r")]⟩) =
      .ok (.obj [("success", .bool true), ("data", .str "r")]) ∧
    moderate (.success ⟨true, 200,
        .obj [("success", .bool false), ("error", .str "bad input")]⟩) =
      .error ⟨"Error", "bad input"⟩ ∧
    moderate (.success ⟨true, 200, .obj [("success", .bool false)]⟩) =
      .error ⟨"Error", "审核失败"⟩ :=
  ⟨(c5_moderate_outcomes ⟨false, 500, .null⟩ "").1 rfl,
   by
     have := (c5_moderate_outcomes ⟨true, 200,
       .obj [("success", .bool true), ("result", .str "r")]⟩ "").2.1 rfl rfl
     simpa [jsGet] using this,
   (c5_moderate_outcomes ⟨true, 200,
       .obj [("success", .bool false), ("error", .str "bad input")]⟩
       "bad input").2.2.1 rfl rfl rfl (by decide),
   (c5_moderate_outcomes ⟨true, 200,
       .obj [("success", .bool false)]⟩ "").2.2.2 rfl rfl rfl⟩

end Moderation
